import Mathlib

/-!
Verification of `Silicon/Sophgo/SG2042Pkg/Sec/Platform.c` (SG2042 SEC phase
platform initialization).  The C file converts a flattened device tree (FDT)
into memory-mapped-I/O resource HOBs, relocates the FDT into freshly
allocated pages, and announces the relocated pointer and the firmware volume
via HOBs.

The embedding models the FDT as a list of nodes in traversal order (the
order `fdt_node_offset_by_compatible` enumerates them).  External
collaborators that are not part of this repository (libfdt header
validation, `AllocatePages`, `BuildGuidHob`, the PCD constants and
`fdt_open_into`) are modelled as an explicit environment record; the HOB
store is modelled as the ordered list of HOB events the code deposits.
All 64-bit C arithmetic is carried out on `Nat` with explicit reduction
modulo `2 ^ 64` where the C type would wrap.
-/

namespace SG2042Sec

/-- Modulus of `UINT64` arithmetic in the C source. -/
def UINT64_MOD : Nat := 2 ^ 64

/-- EFI_PAGE_SIZE from the UEFI base types: 4096 bytes. -/
def EFI_PAGE_SIZE : Nat := 4096

/-- ALIGN_VALUE macro from MdePkg `Base.h`:
`(Value) + (((Alignment) - (Value)) & ((Alignment) - 1))`, evaluated in
`UINT64` arithmetic, hence reduced modulo `2 ^ 64`.  The C subtraction
`Alignment - Value` on `UINT64` is modelled as
`(alignment + 2 ^ 64 - value % 2 ^ 64) % 2 ^ 64`. -/
def ALIGN_VALUE (value alignment : Nat) : Nat :=
  (value + ((alignment + UINT64_MOD - value % UINT64_MOD) % UINT64_MOD &&& (alignment - 1)))
    % UINT64_MOD

/-- Reading `SwapBytes64 (Reg[i])` in the source: a big-endian 64-bit word
taken from 8 consecutive property bytes starting at byte offset `off`.
Bytes past the end of the list correspond to the out-of-bounds reads the C
code performs beyond a short `reg` property; their content is unspecified
in the source and modelled as 0 (no theorem below depends on that choice,
only on record counts). -/
def be64 (bytes : List Nat) (off : Nat) : Nat :=
  (List.range 8).foldl (fun acc i => acc * 256 + bytes.getD (off + i) 0 % 256) 0

/-- EFI_SIZE_TO_PAGES from `UefiBaseType.h`:
`((Size) >> EFI_PAGE_SHIFT) + (((Size) & EFI_PAGE_MASK) ? 1 : 0)`. -/
def EFI_SIZE_TO_PAGES (size : Nat) : Nat :=
  (size >>> 12) + (if size &&& 4095 ≠ 0 then 1 else 0)

/-- EFI_PAGES_TO_SIZE from `UefiBaseType.h`: `(Pages) << EFI_PAGE_SHIFT)`. -/
def EFI_PAGES_TO_SIZE (pages : Nat) : Nat := pages <<< 12

/-- A device-tree node as seen by the scan: its `compatible` string list and
its raw `reg` property bytes (`none` when the property is absent, in which
case `fdt_getprop` returns NULL). -/
structure FdtNode where
  compatible : List String
  reg : Option (List Nat)
deriving Repr, DecidableEq

/-- HOB events deposited by the code, in emission order:
`resource` for `BuildResourceDescriptorHob` (always memory-mapped I/O with
the fixed attribute set), `fdtPointer` for the GUID HOB holding the
relocated-tree pointer, `fv` for `BuildFvHob`. -/
inductive Hob where
  | resource (base size : Nat)
  | fdtPointer (ptr : Nat)
  | fv (base size : Nat)
deriving Repr, DecidableEq

/-- AddIoMemoryBaseSizeHob from the source: aligns the size with
`ALIGN_VALUE (MemorySize, EFI_PAGE_SIZE)` and builds one memory-mapped-I/O
resource descriptor HOB. -/
def AddIoMemoryBaseSizeHob (memoryBase memorySize : Nat) : Hob :=
  Hob.resource memoryBase (ALIGN_VALUE memorySize EFI_PAGE_SIZE)

/-- Compatible matching performed by `fdt_node_offset_by_compatible`: the
node matches when its `compatible` string list contains the identifier. -/
def nodeMatches (compatible : String) (node : FdtNode) : Bool :=
  node.compatible.contains compatible

/-- HOBs emitted by one iteration of the `while` loop in
`PopulateIoResources` for one candidate node: nothing unless the node
matches; nothing when `fdt_getprop` returns NULL; otherwise one record from
words 0 and 1, plus a second record from words 2 and 3 when
`LenP > 2 * sizeof (UINT64)`.  Note the source checks no lower bound on
`LenP` before reading words 0 and 1. -/
def scanNode (compatible : String) (node : FdtNode) : List Hob :=
  if nodeMatches compatible node then
    match node.reg with
    | none => []
    | some regBytes =>
      AddIoMemoryBaseSizeHob (be64 regBytes 0) (be64 regBytes 8) ::
        (if 2 * 8 < regBytes.length then
          [AddIoMemoryBaseSizeHob (be64 regBytes 16) (be64 regBytes 24)]
        else [])
  else []

/-- PopulateIoResources from the source: iterate all nodes in traversal
order, emitting the records of every matching node. -/
def PopulateIoResources : List FdtNode → String → List Hob
  | [], _ => []
  | node :: rest, compatible =>
      scanNode compatible node ++ PopulateIoResources rest compatible

/-- Compatible string of the PCIe host bridge scan in the source. -/
def pcieCompatible : String := "sophgo,cdns-pcie-host"

/-- Compatible string of the SD controller scan in the source. -/
def sdCompatible : String := "bitmain,bm-sd"

/-- The flattened device tree as the code observes it through libfdt:
whether `fdt_check_header` accepts it, the 32-bit `totalsize` header field,
and the nodes in traversal order. -/
structure Fdt where
  headerOk : Bool
  totalsize : Nat
  nodes : List FdtNode
deriving Repr, DecidableEq

/-- fdt_totalsize reads a 32-bit header field. -/
def fdt_totalsize (f : Fdt) : Nat := f.totalsize % 2 ^ 32

/-- Environment of external collaborators: `AllocatePages` (returns the new
base or NULL), whether `BuildGuidHob` succeeds, the two firmware-volume PCD
constants, and the repacking `fdt_open_into` (the tree content a reader of
the relocated copy would see). -/
structure Env where
  allocatePages : Nat → Option Nat
  guidHobOk : Bool
  pcdFvBase : Nat
  pcdFvSize : Nat
  fdt_open_into : Fdt → Nat → Fdt

/-- Return status of the entry point: the source returns either
`EFI_SUCCESS` or `EFI_UNSUPPORTED`. -/
inductive EFI_STATUS where
  | success
  | unsupported
deriving Repr, DecidableEq

/-- Observable outcome of `PlatformPeimInitialization`: the status, the HOB
events in emission order, the page count passed to `AllocatePages` (when
the call is reached) and the size passed to `fdt_open_into` (when reached). -/
structure PeiResult where
  status : EFI_STATUS
  hobs : List Hob
  allocatedPages : Option Nat
  openIntoSize : Option Nat
deriving Repr, DecidableEq

/-- PlatformPeimInitialization from the source, translated control-flow
step by step: NULL check, `fdt_check_header`, size and page computation,
`AllocatePages`, `fdt_open_into` into the new allocation, the FDT GUID HOB,
`BuildFvHob`, the PCIe scan, the fixed 3GB-4GB window, the SD scan.  The
relocated copy produced by `fdt_open_into` is bound but never read again by
the source, which scans `Base` (the original pointer) in both
`PopulateIoResources` calls. -/
def PlatformPeimInitialization (env : Env) (deviceTreeAddress : Option Fdt) : PeiResult :=
  match deviceTreeAddress with
  | none =>
      { status := .unsupported, hobs := [], allocatedPages := none, openIntoSize := none }
  | some base =>
    if base.headerOk = false then
      { status := .unsupported, hobs := [], allocatedPages := none, openIntoSize := none }
    else
      let fdtSize := fdt_totalsize base
      let fdtPages := EFI_SIZE_TO_PAGES fdtSize
      match env.allocatePages fdtPages with
      | none =>
          { status := .unsupported, hobs := [], allocatedPages := some fdtPages,
            openIntoSize := none }
      | some newBase =>
        let _relocated := env.fdt_open_into base (EFI_PAGES_TO_SIZE fdtPages)
        if env.guidHobOk = false then
          { status := .unsupported, hobs := [], allocatedPages := some fdtPages,
            openIntoSize := some (EFI_PAGES_TO_SIZE fdtPages) }
        else
          { status := .success,
            hobs := Hob.fdtPointer newBase ::
              Hob.fv env.pcdFvBase env.pcdFvSize ::
                (PopulateIoResources base.nodes pcieCompatible ++
                  AddIoMemoryBaseSizeHob 0xC0000000 0x40000000 ::
                    PopulateIoResources base.nodes sdCompatible),
            allocatedPages := some fdtPages,
            openIntoSize := some (EFI_PAGES_TO_SIZE fdtPages) }

/-- Byte length of the `reg` property as `fdt_getprop` reports it in
`LenP` (`none` when the property is absent). -/
def regLen (n : FdtNode) : Option Nat := n.reg.map List.length

/-- The record built from words 0 and 1 of a node's `reg` property. -/
def firstPairHob (n : FdtNode) : Hob :=
  AddIoMemoryBaseSizeHob (be64 (n.reg.getD []) 0) (be64 (n.reg.getD []) 8)

/-- Whether a HOB event is a resource descriptor record. -/
def isResourceHob : Hob → Bool
  | .resource _ _ => true
  | _ => false

/-- Concrete `reg` bytes of a PCIe host bridge node: four big-endian words
0x4000000000, 0x10000000, 0x5000000000, 0x1000000. -/
def pcieRegBytes : List Nat :=
  [0x00,0x00,0x00,0x40,0x00,0x00,0x00,0x00,
   0x00,0x00,0x00,0x00,0x10,0x00,0x00,0x00,
   0x00,0x00,0x00,0x50,0x00,0x00,0x00,0x00,
   0x00,0x00,0x00,0x00,0x01,0x00,0x00,0x00]

/-- Concrete `reg` bytes of an SD controller node: two big-endian words
0x6000000000 and 0x1000. -/
def sdRegBytes : List Nat :=
  [0,0,0,0x60,0,0,0,0, 0,0,0,0,0,0,0x10,0]

/-- Concrete second SD-class node bytes: words 0x6100000000 and 0x2000. -/
def sd2RegBytes : List Nat :=
  [0,0,0,0x61,0,0,0,0, 0,0,0,0,0,0,0x20,0]

/-- A PCIe host bridge node with a well-formed 4-word `reg`. -/
def pcieNode : FdtNode :=
  { compatible := ["sophgo,cdns-pcie-host"], reg := some pcieRegBytes }

/-- An SD controller node with a well-formed 2-word `reg`. -/
def sdNode : FdtNode :=
  { compatible := ["bitmain,bm-sd"], reg := some sdRegBytes }

/-- A second SD controller node with a well-formed 2-word `reg`. -/
def sdNode2 : FdtNode :=
  { compatible := ["bitmain,bm-sd"], reg := some sd2RegBytes }

/-- A PCIe-compatible node whose `reg` holds a single 64-bit word: below
the two-word minimum the spec requires. -/
def malformedOneWordNode : FdtNode :=
  { compatible := ["sophgo,cdns-pcie-host"], reg := some [0,0,0,0x60,0,0,0,0] }

/-- A PCIe-compatible node whose `reg` holds three 64-bit words: an odd
word count the spec calls malformed. -/
def malformedThreeWordNode : FdtNode :=
  { compatible := ["sophgo,cdns-pcie-host"],
    reg := some [0,0,0,0x60,0,0,0,0, 0,0,0,0,0,0,0x10,0, 0,0,0,0x61,0,0,0,0] }

/-- A valid two-node tree: one PCIe host bridge, one SD controller. -/
def sampleFdt : Fdt := { headerOk := true, totalsize := 0x2000, nodes := [pcieNode, sdNode] }

/-- A valid tree with no nodes at all. -/
def emptyFdt : Fdt := { headerOk := true, totalsize := 0x1000, nodes := [] }

/-- A valid empty tree whose declared size is not page aligned. -/
def capacityFdt : Fdt := { headerOk := true, totalsize := 0x2001, nodes := [] }

/-- A cooperative environment: allocation and GUID HOB creation succeed,
with concrete firmware-volume PCD constants. -/
def sampleEnv : Env :=
  { allocatePages := fun _ => some 0x80000000, guidHobOk := true,
    pcdFvBase := 0x22000000, pcdFvSize := 0x200000,
    fdt_open_into := fun f _ => f }

/-! ### Shared arithmetic lemmas -/

theorem and_4095_eq_mod (n : Nat) : n &&& 4095 = n % 4096 := by
  have h := Nat.and_pow_two_sub_one_eq_mod n 12
  norm_num at h
  exact h

theorem ALIGN_VALUE_page_eq (v : Nat) (h : v < 2 ^ 64) :
    ALIGN_VALUE v EFI_PAGE_SIZE = 4096 * ((v + 4095) / 4096) % 2 ^ 64 := by
  unfold ALIGN_VALUE EFI_PAGE_SIZE UINT64_MOD
  norm_num
  rw [and_4095_eq_mod]
  omega

theorem EFI_SIZE_TO_PAGES_eq (s : Nat) : EFI_SIZE_TO_PAGES s = (s + 4095) / 4096 := by
  unfold EFI_SIZE_TO_PAGES
  rw [and_4095_eq_mod, Nat.shiftRight_eq_div_pow]
  norm_num
  by_cases h : s % 4096 = 0
  · simp [h]
    omega
  · simp [h]
    omega

theorem EFI_PAGES_TO_SIZE_eq (p : Nat) : EFI_PAGES_TO_SIZE p = 4096 * p := by
  unfold EFI_PAGES_TO_SIZE
  rw [Nat.shiftLeft_eq]
  norm_num
  omega

/-! ### Shared scan lemmas -/

theorem populate_eq_map_of_wellformed :
    ∀ (nodes : List FdtNode) (c : String),
      (∀ n ∈ nodes, nodeMatches c n = true → regLen n = some 16) →
      PopulateIoResources nodes c
        = (nodes.filter (fun n => nodeMatches c n)).map firstPairHob := by
  intro nodes c
  induction nodes with
  | nil => intro _; rfl
  | cons n rest ih =>
    intro h
    have hrest : ∀ m ∈ rest, nodeMatches c m = true → regLen m = some 16 :=
      fun m hm => h m (List.mem_cons_of_mem _ hm)
    by_cases hm : nodeMatches c n = true
    · obtain ⟨b, hb, hlen⟩ : ∃ b, n.reg = some b ∧ b.length = 16 := by
        have hl := h n (List.mem_cons_self _ _) hm
        cases hr : n.reg with
        | none => rw [regLen, hr] at hl; simp at hl
        | some b =>
          rw [regLen, hr] at hl
          simp at hl
          exact ⟨b, rfl, hl⟩
      rw [PopulateIoResources, scanNode, if_pos hm, hb]
      simp only [hlen]
      norm_num
      rw [List.filter_cons_of_pos hm, List.map_cons, ih hrest, firstPairHob, hb]
      rfl
    · rw [PopulateIoResources, scanNode, if_neg hm,
        List.filter_cons_of_neg (by simpa using hm), ih hrest]
      rfl

theorem populate_nil_of_no_match (nodes : List FdtNode) (c : String)
    (h : ∀ n ∈ nodes, nodeMatches c n = false) :
    PopulateIoResources nodes c = [] := by
  induction nodes with
  | nil => rfl
  | cons n rest ih =>
    rw [PopulateIoResources, scanNode, if_neg (by simp [h n (List.mem_cons_self _ _)]),
      List.nil_append]
    exact ih fun m hm => h m (List.mem_cons_of_mem _ hm)

theorem populate_all_resources (nodes : List FdtNode) (c : String) :
    ∀ x ∈ PopulateIoResources nodes c, isResourceHob x = true := by
  induction nodes with
  | nil => intro x hx; simp [PopulateIoResources] at hx
  | cons n rest ih =>
    intro x hx
    rw [PopulateIoResources, List.mem_append] at hx
    rcases hx with hx | hx
    · rw [scanNode] at hx
      split at hx
      · split at hx
        · simp at hx
        · rw [List.mem_cons] at hx
          rcases hx with hx | hx
          · rw [hx]; rfl
          · split at hx
            · rw [List.mem_singleton] at hx
              rw [hx]; rfl
            · simp at hx
      · simp at hx
    · exact ih x hx

/-! ### Claim theorems -/

/-- C1: the claim says a matching node whose reg property holds 1 or 3
big-endian 64-bit words yields 0 resource records.  The code only tests
`fdt_getprop` for NULL and never checks `LenP` against the two-word
minimum, so a one-word reg emits 1 record and a three-word reg emits 2
(reading bytes beyond the property in both cases); scanning does continue
with the remaining nodes.  This theorem records the actual behaviour at
such nodes: 1 record for the one-word node, 2 for the three-word node, and
the well-formed node after the malformed one still contributes its
records. -/
theorem C1_malformed_reg_still_emits :
    (scanNode pcieCompatible malformedOneWordNode).length = 1 ∧
    (scanNode pcieCompatible malformedThreeWordNode).length = 2 ∧
    (PopulateIoResources [malformedOneWordNode, pcieNode] pcieCompatible).length = 3 ∧
    (PopulateIoResources [malformedOneWordNode, pcieNode] pcieCompatible).drop 1
      = scanNode pcieCompatible pcieNode := by decide

/-- C2 counterexample: for input size `2 ^ 64 - 1` the page round-up
exceeds the 64-bit range, yet the Normalizer does not fail: it emits a
record whose size has wrapped modulo `2 ^ 64` to 0. -/
theorem C2_overflow_wraps_counterexample :
    2 ^ 64 ≤ 4096 * ((0xFFFFFFFFFFFFFFFF + 4095) / 4096) ∧
    AddIoMemoryBaseSizeHob 0x6000000000 0xFFFFFFFFFFFFFFFF
      = Hob.resource 0x6000000000 0 := by decide

/-- C2 amended: the Normalizer never fails; for every 64-bit size it emits
a record whose size is the page round-up reduced modulo `2 ^ 64` (hence 0
when the round-up overflows), exactly as `ALIGN_VALUE` computes it. -/
theorem C2_align_reduces_mod64 (base size : Nat) (h : size < 2 ^ 64) :
    AddIoMemoryBaseSizeHob base size
      = Hob.resource base (4096 * ((size + 4095) / 4096) % 2 ^ 64) := by
  rw [AddIoMemoryBaseSizeHob, ALIGN_VALUE_page_eq size h]

/-- Witness for C2 amended at the concrete size `2 ^ 64 - 1`. -/
theorem C2_align_reduces_mod64_witness :
    (0xFFFFFFFFFFFFFFFF : Nat) < 2 ^ 64 ∧
    AddIoMemoryBaseSizeHob 1 0xFFFFFFFFFFFFFFFF
      = Hob.resource 1 (4096 * ((0xFFFFFFFFFFFFFFFF + 4095) / 4096) % 2 ^ 64) :=
  ⟨by norm_num, C2_align_reduces_mod64 1 0xFFFFFFFFFFFFFFFF (by norm_num)⟩

/-- C3: a NULL tree pointer, or a tree whose header fails validation,
yields the unsupported outcome with an empty HOB event list: no resource
records and no announcements. -/
theorem C3_invalid_input_failure_no_hobs (env : Env) (t : Option Fdt)
    (h : t = none ∨ ∃ f, t = some f ∧ f.headerOk = false) :
    (PlatformPeimInitialization env t).status = EFI_STATUS.unsupported ∧
    (PlatformPeimInitialization env t).hobs = [] := by
  rcases h with h | ⟨f, rfl, hf⟩
  · subst h
    exact ⟨rfl, rfl⟩
  · simp [PlatformPeimInitialization, hf]

/-- Witness for C3 at the NULL input. -/
theorem C3_invalid_input_failure_no_hobs_witness :
    (PlatformPeimInitialization sampleEnv none).status = EFI_STATUS.unsupported ∧
    (PlatformPeimInitialization sampleEnv none).hobs = [] :=
  C3_invalid_input_failure_no_hobs sampleEnv none (Or.inl rfl)

/-- C4: end-to-end run on a valid tree holding one PCIe host bridge node
(reg words 0x4000000000/0x10000000/0x5000000000/0x1000000) and one SD
node (reg words 0x6000000000/0x1000): success, and the HOB events are, in
order, the relocated-tree announcement, the firmware-volume announcement,
the two PCIe records, the fixed 0xC0000000/0x40000000 record, and the SD
record. -/
theorem C4_end_to_end :
    PlatformPeimInitialization sampleEnv (some sampleFdt) =
      { status := .success,
        hobs := [Hob.fdtPointer 0x80000000,
                 Hob.fv 0x22000000 0x200000,
                 Hob.resource 0x4000000000 0x10000000,
                 Hob.resource 0x5000000000 0x1000000,
                 Hob.resource 0xC0000000 0x40000000,
                 Hob.resource 0x6000000000 0x1000],
        allocatedPages := some 2, openIntoSize := some 0x2000 } := by decide

/-- C5 counterexample: for the unaligned input size `2 ^ 64 - 4095` the
emitted record size is 0, which is smaller than the input, contradicting
the claim that the emitted size is always the least page multiple greater
than or equal to the input. -/
theorem C5_size_decreases_counterexample :
    AddIoMemoryBaseSizeHob 0x6000000000 0xFFFFFFFFFFFFF001
      = Hob.resource 0x6000000000 0 ∧ (0 : Nat) < 0xFFFFFFFFFFFFF001 := by decide

/-- C5 amended: whenever the page round-up does not overflow 64 bits
(sizes up to `2 ^ 64 - 4096`), the emitted record size is the least
multiple of 4096 that is greater than or equal to the input, and an
already aligned input is emitted unchanged. -/
theorem C5_least_multiple_when_no_overflow (base v : Nat) (h : v + 4095 < 2 ^ 64) :
    ∃ s, AddIoMemoryBaseSizeHob base v = Hob.resource base s ∧
      4096 ∣ s ∧ v ≤ s ∧ s < v + 4096 ∧ (v % 4096 = 0 → s = v) := by
  refine ⟨ALIGN_VALUE v EFI_PAGE_SIZE, rfl, ?_⟩
  rw [ALIGN_VALUE_page_eq v (by omega)]
  have hlt : 4096 * ((v + 4095) / 4096) < 2 ^ 64 := by omega
  rw [Nat.mod_eq_of_lt hlt]
  omega

/-- Witness for C5 amended at the concrete size 5000. -/
theorem C5_least_multiple_witness :
    ((5000 : Nat) + 4095 < 2 ^ 64) ∧
    ∃ s, AddIoMemoryBaseSizeHob 2 5000 = Hob.resource 2 s ∧
      4096 ∣ s ∧ 5000 ≤ s ∧ s < 5000 + 4096 ∧ (5000 % 4096 = 0 → s = 5000) :=
  ⟨by norm_num, C5_least_multiple_when_no_overflow 2 5000 (by norm_num)⟩

/-- C6: on a tree whose matching nodes all carry a well-formed 2-word
(16-byte) reg property, the scan emits exactly one record per matching
node, in traversal order: the emitted list is the map of the first-pair
record over the matching nodes, and its length is the number of matching
nodes. -/
theorem C6_wellformed_nodes_one_record_each (nodes : List FdtNode) (c : String)
    (h : ∀ n ∈ nodes, nodeMatches c n = true → regLen n = some 16) :
    PopulateIoResources nodes c
      = (nodes.filter (fun n => nodeMatches c n)).map firstPairHob ∧
    (PopulateIoResources nodes c).length
      = (nodes.filter (fun n => nodeMatches c n)).length := by
  have heq := populate_eq_map_of_wellformed nodes c h
  exact ⟨heq, by rw [heq, List.length_map]⟩

/-- Witness for C6 on a concrete two-node SD-class tree. -/
theorem C6_wellformed_nodes_witness :
    (∀ n ∈ [sdNode, sdNode2], nodeMatches sdCompatible n = true → regLen n = some 16) ∧
    PopulateIoResources [sdNode, sdNode2] sdCompatible
      = ([sdNode, sdNode2].filter (fun n => nodeMatches sdCompatible n)).map firstPairHob ∧
    (PopulateIoResources [sdNode, sdNode2] sdCompatible).length = 2 := by
  have hdec : ∀ n ∈ [sdNode, sdNode2],
      nodeMatches sdCompatible n = true → regLen n = some 16 := by decide
  have h := C6_wellformed_nodes_one_record_each [sdNode, sdNode2] sdCompatible hdec
  exact ⟨hdec, h.1, by rw [h.2]; decide⟩

/-- C7: a matching node whose reg property holds exactly 4 words (32
bytes) contributes exactly 2 records, the first (base, size) pair first,
then the second pair, in the order the words appear. -/
theorem C7_four_word_reg_two_records (c : String) (n : FdtNode) (b : List Nat)
    (hm : nodeMatches c n = true) (hr : n.reg = some b) (hl : b.length = 32) :
    scanNode c n
      = [AddIoMemoryBaseSizeHob (be64 b 0) (be64 b 8),
         AddIoMemoryBaseSizeHob (be64 b 16) (be64 b 24)] := by
  rw [scanNode, if_pos hm, hr]
  simp [hl]

/-- Witness for C7 at the concrete PCIe node. -/
theorem C7_four_word_reg_witness :
    nodeMatches pcieCompatible pcieNode = true ∧
    scanNode pcieCompatible pcieNode
      = [AddIoMemoryBaseSizeHob (be64 pcieRegBytes 0) (be64 pcieRegBytes 8),
         AddIoMemoryBaseSizeHob (be64 pcieRegBytes 16) (be64 pcieRegBytes 24)] :=
  ⟨by decide,
    C7_four_word_reg_two_records pcieCompatible pcieNode pcieRegBytes
      (by decide) rfl (by decide)⟩

/-- C8: for a valid tree of declared size S, the entry point requests
exactly `ceil (S / 4096)` pages from the allocator, and the capacity
passed to the repacking copy `fdt_open_into` is that allocation's byte
size `4096 * ceil (S / 4096)`, not S. -/
theorem C8_relocation_pages_capacity (env : Env) (f : Fdt) (p : Nat)
    (hok : f.headerOk = true)
    (halloc : env.allocatePages (EFI_SIZE_TO_PAGES (fdt_totalsize f)) = some p) :
    (PlatformPeimInitialization env (some f)).allocatedPages
      = some ((fdt_totalsize f + 4095) / 4096) ∧
    (PlatformPeimInitialization env (some f)).openIntoSize
      = some (4096 * ((fdt_totalsize f + 4095) / 4096)) := by
  rw [EFI_SIZE_TO_PAGES_eq] at halloc
  cases hg : env.guidHobOk <;>
    simp [PlatformPeimInitialization, hok, halloc, hg,
      EFI_SIZE_TO_PAGES_eq, EFI_PAGES_TO_SIZE_eq]

/-- Witness for C8 on a valid tree of unaligned declared size 0x2001:
3 pages are requested and the copy capacity is 0x3000. -/
theorem C8_relocation_pages_capacity_witness :
    (PlatformPeimInitialization sampleEnv (some capacityFdt)).allocatedPages = some 3 ∧
    (PlatformPeimInitialization sampleEnv (some capacityFdt)).openIntoSize = some 0x3000 := by
  have h := C8_relocation_pages_capacity sampleEnv capacityFdt 0x80000000 rfl rfl
  norm_num [fdt_totalsize, capacityFdt] at h
  exact h

/-- C9: the entry point returns one of exactly two outcomes, success or
unsupported; and a valid tree with no node matching either compatible
string still succeeds, emitting only the two announcements and the fixed
record. -/
theorem C9_two_valued_and_no_match_success (env : Env) (t : Option Fdt) (f : Fdt) (p : Nat)
    (hok : f.headerOk = true)
    (halloc : env.allocatePages (EFI_SIZE_TO_PAGES (fdt_totalsize f)) = some p)
    (hg : env.guidHobOk = true)
    (hnone : ∀ n ∈ f.nodes,
      nodeMatches pcieCompatible n = false ∧ nodeMatches sdCompatible n = false) :
    ((PlatformPeimInitialization env t).status = EFI_STATUS.success ∨
     (PlatformPeimInitialization env t).status = EFI_STATUS.unsupported) ∧
    (PlatformPeimInitialization env (some f)).status = EFI_STATUS.success ∧
    (PlatformPeimInitialization env (some f)).hobs
      = [Hob.fdtPointer p, Hob.fv env.pcdFvBase env.pcdFvSize,
         AddIoMemoryBaseSizeHob 0xC0000000 0x40000000] := by
  refine ⟨?_, ?_, ?_⟩
  · cases h : (PlatformPeimInitialization env t).status
    · exact Or.inl rfl
    · exact Or.inr rfl
  · simp [PlatformPeimInitialization, hok, halloc, hg]
  · have h1 : PopulateIoResources f.nodes pcieCompatible = [] :=
      populate_nil_of_no_match _ _ fun n hn => (hnone n hn).1
    have h2 : PopulateIoResources f.nodes sdCompatible = [] :=
      populate_nil_of_no_match _ _ fun n hn => (hnone n hn).2
    simp [PlatformPeimInitialization, hok, halloc, hg, h1, h2]

/-- Witness for C9 at the NULL input and the empty valid tree. -/
theorem C9_two_valued_witness :
    ((PlatformPeimInitialization sampleEnv none).status = EFI_STATUS.success ∨
     (PlatformPeimInitialization sampleEnv none).status = EFI_STATUS.unsupported) ∧
    (PlatformPeimInitialization sampleEnv (some emptyFdt)).status = EFI_STATUS.success ∧
    (PlatformPeimInitialization sampleEnv (some emptyFdt)).hobs
      = [Hob.fdtPointer 0x80000000, Hob.fv 0x22000000 0x200000,
         AddIoMemoryBaseSizeHob 0xC0000000 0x40000000] :=
  C9_two_valued_and_no_match_success sampleEnv none emptyFdt 0x80000000
    rfl rfl rfl (by decide)

/-- C10: both scans read the original input tree.  The outcome is
unchanged under any replacement of the repacking function that produces
the relocated copy, and on the success path the resource records in the
HOB list are exactly those computed from the original tree's nodes. -/
theorem C10_scans_use_original_tree (env : Env) (f : Fdt) (p : Nat)
    (r1 r2 : Fdt → Nat → Fdt)
    (hok : f.headerOk = true)
    (halloc : env.allocatePages (EFI_SIZE_TO_PAGES (fdt_totalsize f)) = some p)
    (hg : env.guidHobOk = true) :
    PlatformPeimInitialization { env with fdt_open_into := r1 } (some f)
      = PlatformPeimInitialization { env with fdt_open_into := r2 } (some f) ∧
    (PlatformPeimInitialization env (some f)).hobs.filter isResourceHob
      = PopulateIoResources f.nodes pcieCompatible ++
          AddIoMemoryBaseSizeHob 0xC0000000 0x40000000 ::
            PopulateIoResources f.nodes sdCompatible := by
  constructor
  · rfl
  · have hp1 := populate_all_resources f.nodes pcieCompatible
    have hp2 := populate_all_resources f.nodes sdCompatible
    simp [PlatformPeimInitialization, hok, halloc, hg, List.filter_append,
      List.filter_eq_self.mpr hp1, List.filter_eq_self.mpr hp2,
      isResourceHob, AddIoMemoryBaseSizeHob]

/-- Witness for C10 on the concrete two-node tree, with two different
repacking functions (the identity and one that discards the tree). -/
theorem C10_scans_use_original_tree_witness :
    PlatformPeimInitialization
        { sampleEnv with fdt_open_into := fun f _ => f } (some sampleFdt)
      = PlatformPeimInitialization
          { sampleEnv with fdt_open_into := fun _ _ => emptyFdt } (some sampleFdt) ∧
    (PlatformPeimInitialization sampleEnv (some sampleFdt)).hobs.filter isResourceHob
      = PopulateIoResources sampleFdt.nodes pcieCompatible ++
          AddIoMemoryBaseSizeHob 0xC0000000 0x40000000 ::
            PopulateIoResources sampleFdt.nodes sdCompatible :=
  C10_scans_use_original_tree sampleEnv sampleFdt 0x80000000
    (fun f _ => f) (fun _ _ => emptyFdt) rfl rfl rfl

end SG2042Sec
